import Mathlib

/-!
Verification of the watermark-based incremental polling trigger of the
n8n custom Salesforce node (src/nodes/CustomSalesforce/v2/triggers/router.ts).

Shallow embedding conventions:
* JavaScript strings are embedded as `List Char` (`JSStr`); `String.prototype.slice`
  with its negative-index clamping is embedded as `jsSlice`.
* Timestamps (the ISO-8601 strings produced by `DateTime.now().toISO()`) are
  embedded as `Nat`.  For the fixed ISO format the lexicographic string order
  used by the code and by SOQL datetime comparison agrees with chronological
  order, so only the order structure matters.
* The host context (`this.getNodeParameter`, `this.getMode`, the static data
  object) is made explicit: parameters travel in `PollContext`, the mutable
  `workflowData` in `WorkflowStaticData`, and the combined query builder +
  paged fetcher (`getQuery` + `salesforceApiRequestAllItems`, both outside the
  router) as a function argument `fetchAll` returning `Except`.
* Exceptions are embedded as `Except`: the inner `try` wraps any fetch failure
  in a `NodeApiError`; the outer `catch` rethrows on every path (its branches
  differ only in logging), so the error always propagates with the static data
  unchanged.
-/

/-- JavaScript strings, embedded as lists of characters. -/
abbrev JSStr := List Char

/-- Clamp one index argument of `String.prototype.slice` against a string of
length `n`: a negative index counts from the end (clamped below at 0), a
non-negative index is clamped above at `n`. -/
def jsSliceIndex (n : Nat) (i : Int) : Nat :=
  if i < 0 then n - (-i).toNat else min i.toNat n

/-- Embedding of `s.slice(a, b)` for JavaScript strings. -/
def jsSlice (s : JSStr) (a b : Int) : JSStr :=
  (s.take (jsSliceIndex s.length b)).drop (jsSliceIndex s.length a)

/-- Embedding of the one-argument `s.slice(a)` (the end defaults to the
string's length). -/
def jsSliceFrom (s : JSStr) (a : Int) : JSStr :=
  jsSlice s a s.length

/-- Embedding of `s.toUpperCase()`; the selectors involved are ASCII, where
`Char.toUpper` agrees with the JavaScript conversion. -/
def jsToUpperCase (s : JSStr) : JSStr :=
  s.map Char.toUpper

/-- router.ts line 17: `triggerOn.slice(0, 1).toUpperCase() + triggerOn.slice(1, -7)`. -/
def triggerResourceRaw (triggerOn : JSStr) : JSStr :=
  jsToUpperCase (jsSlice triggerOn 0 1) ++ jsSlice triggerOn 1 (-7)

/-- router.ts line 18: `triggerOn.slice(-7)`. -/
def changeTypeOf (triggerOn : JSStr) : JSStr :=
  jsSliceFrom triggerOn (-7)

/-- router.ts lines 20-22: when the decoded resource is the literal
`'CustomObject'` the actual resource name is taken from the `customObject`
node parameter. -/
def resolveTriggerResource (triggerOn customObject : JSStr) : JSStr :=
  if triggerResourceRaw triggerOn = "CustomObject".toList then customObject
  else triggerResourceRaw triggerOn

/-- One entry of `options.conditionsUi.conditionValues`. -/
structure Condition where
  field : String
  operation : String
  value : Nat
deriving DecidableEq

/-- router.ts lines 36-66: the condition list pushed for the query.  Empty in
manual mode; two `CreatedDate` clauses when the change type is `'Created'`;
otherwise the two `LastModifiedDate` clauses plus the `CreatedDate < start`
clause. -/
def routerConditions (isManual : Bool) (changeType : JSStr)
    (pollStartDate pollEndDate : Nat) : List Condition :=
  if isManual then []
  else if changeType = "Created".toList then
    [⟨"CreatedDate", ">=", pollStartDate⟩,
     ⟨"CreatedDate", "<", pollEndDate⟩]
  else
    [⟨"LastModifiedDate", ">=", pollStartDate⟩,
     ⟨"LastModifiedDate", "<", pollEndDate⟩,
     ⟨"CreatedDate", "<", pollStartDate⟩]

/-- The argument tuple handed to the external query builder `getQuery`
(router.ts lines 68-73): condition options, resolved resource, the
`returnAll` flag, and the optional record limit. -/
structure SOQLQuery where
  conditions : List Condition
  resource : JSStr
  returnAll : Bool
  limit : Option Nat
deriving DecidableEq

/-- The timestamp fields of a Salesforce record that the built filters
inspect. -/
structure SObjectRecord where
  createdDate : Nat
  lastModifiedDate : Nat
deriving DecidableEq

/-- SOQL semantics of one filter clause on a record: the clauses built by the
router compare `CreatedDate` or `LastModifiedDate` with `>=` or `<`. -/
def satisfiesCondition (r : SObjectRecord) (c : Condition) : Bool :=
  let v := if c.field = "CreatedDate" then r.createdDate
    else if c.field = "LastModifiedDate" then r.lastModifiedDate
    else 0
  if c.operation = ">=" then decide (c.value ≤ v)
  else if c.operation = "<" then decide (v < c.value)
  else false

/-- SOQL semantics of the whole filter: `getQuery` joins the clauses with
`AND`. -/
def matchesConditions (r : SObjectRecord) (cs : List Condition) : Bool :=
  cs.all (satisfiesCondition r)

/-- The node's mutable static data (`this.getWorkflowStaticData('node')`):
only the `lastTimeChecked` checkpoint matters to the router. -/
structure WorkflowStaticData where
  lastTimeChecked : Option Nat
deriving DecidableEq

/-- The host-supplied inputs of one poll invocation: the `triggerOn` and
`customObject` node parameters, whether `this.getMode()` is `'manual'`, and
the timestamp `DateTime.now().toISO()` captured at the start. -/
structure PollContext where
  triggerOn : JSStr
  customObject : JSStr
  isManual : Bool
  now : Nat

/-- router.ts line 25: `(workflowData.lastTimeChecked as string) || now`. -/
def routerStartDate (ctx : PollContext) (wd : WorkflowStaticData) : Nat :=
  wd.lastTimeChecked.getD ctx.now

/-- The query the router builds for one invocation: `getQuery(options,
triggerResource, false, 1)` in manual mode, `getQuery(options,
triggerResource, true)` otherwise (router.ts lines 68-73). -/
def routerBuiltQuery (ctx : PollContext) (wd : WorkflowStaticData) : SOQLQuery :=
  let conds := routerConditions ctx.isManual (changeTypeOf ctx.triggerOn)
    (routerStartDate ctx wd) ctx.now
  let resource := resolveTriggerResource ctx.triggerOn ctx.customObject
  if ctx.isManual then ⟨conds, resource, false, some 1⟩
  else ⟨conds, resource, true, none⟩

/-- The error the router can raise: the inner `try` wraps any fetch failure
in a `NodeApiError` (router.ts line 83) and the outer `catch` rethrows it on
every path (lines 90-107). -/
inductive RouterError where
  | nodeApiError
deriving DecidableEq

/-- Embedding of `router` (router.ts lines 12-115).  `fetchAll` stands for
`salesforceApiRequestAllItems` applied to the built query.  The result pairs
the returned value (`none` embeds the `return null` of an empty batch,
`some batch` the non-empty case) or the propagated error with the updated
static data. -/
def router (ctx : PollContext) (wd : WorkflowStaticData)
    (fetchAll : SOQLQuery → Except Unit (List SObjectRecord)) :
    Except RouterError (Option (List SObjectRecord)) × WorkflowStaticData :=
  let endDate := ctx.now
  match fetchAll (routerBuiltQuery ctx wd) with
  | .error _ =>
    -- NodeApiError thrown at line 83; the outer catch rethrows whether or not
    -- the mode is manual or a checkpoint exists, never touching the static data.
    (.error .nodeApiError, wd)
  | .ok responseData =>
    if responseData.isEmpty then
      -- lines 86-89: checkpoint advanced to endDate, `return null`.
      (.ok none, { lastTimeChecked := some endDate })
    else
      -- lines 108-112: checkpoint advanced to endDate, batch returned.
      (.ok (some responseData), { lastTimeChecked := some endDate })

/-- The spec's decoding rule for the resource fragment, stated as written:
remove the final 7 characters, then upper-case only the first character of
what remains. -/
def specTriggerResource (triggerOn : JSStr) : JSStr :=
  match triggerOn.take (triggerOn.length - 7) with
  | [] => []
  | c :: rest => Char.toUpper c :: rest

/-- A context polling the `leadCreated` selector at time `t`, outside manual
mode, used to instantiate theorems at concrete inputs. -/
def ctxAt (t : Nat) : PollContext :=
  ⟨"leadCreated".toList, [], false, t⟩

/-- A fetch that always succeeds with an empty batch. -/
def emptyFetch : SOQLQuery → Except Unit (List SObjectRecord) :=
  fun _ => .ok []

/-- A fetch that always fails. -/
def failFetch : SOQLQuery → Except Unit (List SObjectRecord) :=
  fun _ => .error ()

example : triggerResourceRaw "opportunityUpdated".toList = "Opportunity".toList := by decide
example : changeTypeOf "opportunityUpdated".toList = "Updated".toList := by decide
example : triggerResourceRaw "customObjectCreated".toList = "CustomObject".toList := by decide
example : triggerResourceRaw "created".toList = "C".toList := by decide
example : specTriggerResource "created".toList = [] := by decide

/-! ## General lemmas about one router invocation -/

/-- When the fetch step fails, the error propagates and the static data is
returned unchanged. -/
theorem router_fetch_error (ctx : PollContext) (wd : WorkflowStaticData)
    (f : SOQLQuery → Except Unit (List SObjectRecord)) (e : Unit)
    (hf : f (routerBuiltQuery ctx wd) = .error e) :
    router ctx wd f = (.error .nodeApiError, wd) := by
  simp [router, hf]

/-- When the fetch step returns an empty batch, the router stores `now` and
returns `null`. -/
theorem router_fetch_empty (ctx : PollContext) (wd : WorkflowStaticData)
    (f : SOQLQuery → Except Unit (List SObjectRecord))
    (hf : f (routerBuiltQuery ctx wd) = .ok []) :
    router ctx wd f = (.ok none, ⟨some ctx.now⟩) := by
  simp [router, hf]

/-- When the fetch step returns a non-empty batch, the router stores `now` and
returns the batch. -/
theorem router_fetch_nonempty (ctx : PollContext) (wd : WorkflowStaticData)
    (f : SOQLQuery → Except Unit (List SObjectRecord))
    (r : SObjectRecord) (rs : List SObjectRecord)
    (hf : f (routerBuiltQuery ctx wd) = .ok (r :: rs)) :
    router ctx wd f = (.ok (some (r :: rs)), ⟨some ctx.now⟩) := by
  simp [router, hf]

/-- Every invocation that completes without an error stores `now` as the new
checkpoint. -/
theorem router_ok_lastTimeChecked (ctx : PollContext) (wd : WorkflowStaticData)
    (f : SOQLQuery → Except Unit (List SObjectRecord))
    (res : Option (List SObjectRecord)) (wd' : WorkflowStaticData)
    (h : router ctx wd f = (.ok res, wd')) :
    wd'.lastTimeChecked = some ctx.now := by
  cases hf : f (routerBuiltQuery ctx wd) with
  | error e =>
    rw [router_fetch_error ctx wd f e hf] at h
    simp at h
  | ok rs =>
    cases rs with
    | nil =>
      rw [router_fetch_empty ctx wd f hf] at h
      cases h
      rfl
    | cons r rest =>
      rw [router_fetch_nonempty ctx wd f r rest hf] at h
      cases h
      rfl

/-! ## C1 -/

/-- C1: a poll of `router` that completes without an error stores the window
end `now` captured at its start as the checkpoint, whether the fetched batch
was empty or not; consequently, over successful polls invoked with
`T1 < T2 < T3` the observed checkpoints each equal their poll's `now` and are
non-decreasing. -/
theorem c1_checkpoint_set_to_now :
    (∀ (ctx : PollContext) (wd : WorkflowStaticData)
      (f : SOQLQuery → Except Unit (List SObjectRecord))
      (res : Option (List SObjectRecord)) (wd' : WorkflowStaticData),
      router ctx wd f = (.ok res, wd') → wd'.lastTimeChecked = some ctx.now) ∧
    (∀ (ctx₁ ctx₂ ctx₃ : PollContext) (wd₀ wd₁ wd₂ wd₃ : WorkflowStaticData)
      (f₁ f₂ f₃ : SOQLQuery → Except Unit (List SObjectRecord))
      (r₁ r₂ r₃ : Option (List SObjectRecord)),
      ctx₁.now < ctx₂.now → ctx₂.now < ctx₃.now →
      router ctx₁ wd₀ f₁ = (.ok r₁, wd₁) →
      router ctx₂ wd₁ f₂ = (.ok r₂, wd₂) →
      router ctx₃ wd₂ f₃ = (.ok r₃, wd₃) →
      wd₁.lastTimeChecked = some ctx₁.now ∧
      wd₂.lastTimeChecked = some ctx₂.now ∧
      wd₃.lastTimeChecked = some ctx₃.now ∧
      ctx₁.now ≤ ctx₂.now ∧ ctx₂.now ≤ ctx₃.now) := by
  constructor
  · exact router_ok_lastTimeChecked
  · intro ctx₁ ctx₂ ctx₃ wd₀ wd₁ wd₂ wd₃ f₁ f₂ f₃ r₁ r₂ r₃ h₁₂ h₂₃ h₁ h₂ h₃
    exact ⟨router_ok_lastTimeChecked _ _ _ _ _ h₁,
      router_ok_lastTimeChecked _ _ _ _ _ h₂,
      router_ok_lastTimeChecked _ _ _ _ _ h₃,
      Nat.le_of_lt h₁₂, Nat.le_of_lt h₂₃⟩

theorem c1_checkpoint_set_to_now_witness :
    (WorkflowStaticData.mk (some 1)).lastTimeChecked = some 1 ∧
    (WorkflowStaticData.mk (some 2)).lastTimeChecked = some 2 ∧
    (WorkflowStaticData.mk (some 3)).lastTimeChecked = some 3 ∧
    (1 : Nat) ≤ 2 ∧ (2 : Nat) ≤ 3 :=
  c1_checkpoint_set_to_now.2 (ctxAt 1) (ctxAt 2) (ctxAt 3)
    ⟨none⟩ ⟨some 1⟩ ⟨some 2⟩ ⟨some 3⟩
    emptyFetch emptyFetch emptyFetch none none none
    (by decide) (by decide) rfl rfl rfl

/-! ## C2 -/

/-- C2: when a previous checkpoint `C` exists and the fetch step fails, the
router re-raises the error and the stored checkpoint remains exactly `C`, so
any subsequent poll computes its window start from `C`. -/
theorem c2_failure_preserves_checkpoint (ctx : PollContext)
    (wd : WorkflowStaticData) (C : Nat) (e : Unit)
    (f : SOQLQuery → Except Unit (List SObjectRecord))
    (hC : wd.lastTimeChecked = some C)
    (hf : f (routerBuiltQuery ctx wd) = .error e) :
    router ctx wd f = (.error .nodeApiError, wd) ∧
    (router ctx wd f).2.lastTimeChecked = some C ∧
    ∀ ctx' : PollContext, routerStartDate ctx' (router ctx wd f).2 = C := by
  have h := router_fetch_error ctx wd f e hf
  refine ⟨h, ?_, ?_⟩
  · rw [h]; exact hC
  · intro ctx'
    rw [h]
    simp [routerStartDate, hC]

theorem c2_failure_preserves_checkpoint_witness :
    router (ctxAt 7) ⟨some 4⟩ failFetch = (.error .nodeApiError, ⟨some 4⟩) ∧
    routerStartDate (ctxAt 9) (router (ctxAt 7) ⟨some 4⟩ failFetch).2 = 4 :=
  ⟨(c2_failure_preserves_checkpoint (ctxAt 7) ⟨some 4⟩ 4 () failFetch rfl rfl).1,
   (c2_failure_preserves_checkpoint (ctxAt 7) ⟨some 4⟩ 4 () failFetch rfl rfl).2.2
     (ctxAt 9)⟩

/-! ## C3 -/

/-- C3: when no previous checkpoint exists and the fetch step fails, the
router propagates the error and the checkpoint stays unset, so a subsequent
poll again observes no previous checkpoint. -/
theorem c3_failure_leaves_checkpoint_unset (ctx : PollContext)
    (wd : WorkflowStaticData) (e : Unit)
    (f : SOQLQuery → Except Unit (List SObjectRecord))
    (h0 : wd.lastTimeChecked = none)
    (hf : f (routerBuiltQuery ctx wd) = .error e) :
    router ctx wd f = (.error .nodeApiError, wd) ∧
    (router ctx wd f).2.lastTimeChecked = none := by
  have h := router_fetch_error ctx wd f e hf
  exact ⟨h, by rw [h]; exact h0⟩

theorem c3_failure_leaves_checkpoint_unset_witness :
    router (ctxAt 7) ⟨none⟩ failFetch = (.error .nodeApiError, ⟨none⟩) ∧
    (router (ctxAt 7) ⟨none⟩ failFetch).2.lastTimeChecked = none :=
  c3_failure_leaves_checkpoint_unset (ctxAt 7) ⟨none⟩ () failFetch rfl rfl

/-- The conditions of the built query are the ones pushed for the poll
window. -/
theorem routerBuiltQuery_conditions (ctx : PollContext) (wd : WorkflowStaticData) :
    (routerBuiltQuery ctx wd).conditions =
      routerConditions ctx.isManual (changeTypeOf ctx.triggerOn)
        (routerStartDate ctx wd) ctx.now := by
  unfold routerBuiltQuery
  cases h : ctx.isManual <;> simp [h]

/-- The resource of the built query is the resolved trigger resource. -/
theorem routerBuiltQuery_resource (ctx : PollContext) (wd : WorkflowStaticData) :
    (routerBuiltQuery ctx wd).resource =
      resolveTriggerResource ctx.triggerOn ctx.customObject := by
  unfold routerBuiltQuery
  cases h : ctx.isManual <;> simp [h]

/-! ## C4 -/

/-- C4: outside manual mode, the filter conditions built for the query window
`[start, end)` are exactly the two `CreatedDate` clauses for a `Created`
change kind, and exactly the three `LastModifiedDate`/`CreatedDate` clauses,
in that order, for an `Updated` change kind. -/
theorem c4_window_filter_clauses (ctx : PollContext) (wd : WorkflowStaticData)
    (hm : ctx.isManual = false) :
    (changeTypeOf ctx.triggerOn = "Created".toList →
      (routerBuiltQuery ctx wd).conditions =
        [⟨"CreatedDate", ">=", routerStartDate ctx wd⟩,
         ⟨"CreatedDate", "<", ctx.now⟩]) ∧
    (changeTypeOf ctx.triggerOn = "Updated".toList →
      (routerBuiltQuery ctx wd).conditions =
        [⟨"LastModifiedDate", ">=", routerStartDate ctx wd⟩,
         ⟨"LastModifiedDate", "<", ctx.now⟩,
         ⟨"CreatedDate", "<", routerStartDate ctx wd⟩]) := by
  constructor
  · intro hct
    rw [routerBuiltQuery_conditions, hm, routerConditions,
      if_neg (by simp), if_pos hct]
  · intro hct
    rw [routerBuiltQuery_conditions, hm, routerConditions,
      if_neg (by simp), if_neg (by rw [hct]; decide)]

theorem c4_window_filter_clauses_witness :
    (routerBuiltQuery (ctxAt 9) ⟨some 4⟩).conditions =
      [⟨"CreatedDate", ">=", 4⟩, ⟨"CreatedDate", "<", 9⟩] :=
  (c4_window_filter_clauses (ctxAt 9) ⟨some 4⟩ rfl).1 (by decide)

/-! ## C5 -/

/-- C5: a record created at a time inside the polled window `[s, e)`
satisfies the `Created` filter of that window, and fails the `Updated` filter
of every window whose start is at most its creation time, because that
filter's third clause requires `CreatedDate < start`; so one creation is
never reported both as a created and as an updated change. -/
theorem c5_no_double_count (r : SObjectRecord) (s e : Nat)
    (h₁ : s ≤ r.createdDate) (h₂ : r.createdDate < e) :
    matchesConditions r (routerConditions false "Created".toList s e) = true ∧
    ∀ s' e' : Nat, s' ≤ r.createdDate →
      matchesConditions r (routerConditions false "Updated".toList s' e') = false := by
  constructor
  · simp [matchesConditions, routerConditions, satisfiesCondition, h₁, h₂]
  · intro s' e' h₃
    simp [matchesConditions, routerConditions, satisfiesCondition]
    omega

theorem c5_no_double_count_witness :
    matchesConditions ⟨5, 5⟩ (routerConditions false "Created".toList 4 9) = true ∧
    matchesConditions ⟨5, 5⟩ (routerConditions false "Updated".toList 4 9) = false :=
  ⟨(c5_no_double_count ⟨5, 5⟩ 4 9 (by decide) (by decide)).1,
   (c5_no_double_count ⟨5, 5⟩ 4 9 (by decide) (by decide)).2 4 9 (by decide)⟩

/-! ## C6 -/

/-- C6: a non-manual first-ever poll (no previous checkpoint) at time `T`
builds the empty window `[T, T)`; provided the fetch succeeds and returns
only records matching the built filter, the batch is empty, the poll returns
`null`, and the new checkpoint is `T`. -/
theorem c6_first_poll_watermark_only (ctx : PollContext)
    (wd : WorkflowStaticData)
    (f : SOQLQuery → Except Unit (List SObjectRecord))
    (rs : List SObjectRecord)
    (hm : ctx.isManual = false)
    (h0 : wd.lastTimeChecked = none)
    (hf : f (routerBuiltQuery ctx wd) = .ok rs)
    (hsound : ∀ r ∈ rs, matchesConditions r (routerBuiltQuery ctx wd).conditions = true) :
    routerStartDate ctx wd = ctx.now ∧
    router ctx wd f = (.ok none, ⟨some ctx.now⟩) := by
  have hstart : routerStartDate ctx wd = ctx.now := by
    simp [routerStartDate, h0]
  have hconds : (routerBuiltQuery ctx wd).conditions =
      routerConditions false (changeTypeOf ctx.triggerOn) ctx.now ctx.now := by
    rw [routerBuiltQuery_conditions, hm, hstart]
  have hnil : rs = [] := by
    cases rs with
    | nil => rfl
    | cons r rest =>
      exfalso
      have hr := hsound r (List.mem_cons_self r rest)
      rw [hconds] at hr
      by_cases hct : changeTypeOf ctx.triggerOn = "Created".toList
      · rw [routerConditions, if_neg (by simp), if_pos hct] at hr
        simp [matchesConditions, satisfiesCondition] at hr
        omega
      · rw [routerConditions, if_neg (by simp), if_neg hct] at hr
        simp [matchesConditions, satisfiesCondition] at hr
        omega
  subst hnil
  exact ⟨hstart, router_fetch_empty ctx wd f hf⟩

theorem c6_first_poll_watermark_only_witness :
    routerStartDate (ctxAt 7) ⟨none⟩ = 7 ∧
    router (ctxAt 7) ⟨none⟩ emptyFetch = (.ok none, ⟨some 7⟩) :=
  c6_first_poll_watermark_only (ctxAt 7) ⟨none⟩ emptyFetch [] rfl rfl rfl
    (by intro r hr; cases hr)

/-! ## C7 -/

/-- C7: a manual-mode poll adds no time-window conditions at all (the
previous checkpoint plays no part in the filter), builds the query with a
limit of one record instead of fetching all, and on success still advances
the checkpoint to the window end `now`. -/
theorem c7_manual_run (ctx : PollContext) (wd : WorkflowStaticData)
    (hm : ctx.isManual = true) :
    (routerBuiltQuery ctx wd).conditions = [] ∧
    (routerBuiltQuery ctx wd).limit = some 1 ∧
    (routerBuiltQuery ctx wd).returnAll = false ∧
    ∀ (f : SOQLQuery → Except Unit (List SObjectRecord))
      (res : Option (List SObjectRecord)) (wd' : WorkflowStaticData),
      router ctx wd f = (.ok res, wd') → wd'.lastTimeChecked = some ctx.now := by
  refine ⟨?_, ?_, ?_, ?_⟩
  · simp [routerBuiltQuery, routerConditions, hm]
  · simp [routerBuiltQuery, hm]
  · simp [routerBuiltQuery, hm]
  · intro f res wd' h
    exact router_ok_lastTimeChecked ctx wd f res wd' h

theorem c7_manual_run_witness :
    (routerBuiltQuery ⟨"leadCreated".toList, [], true, 7⟩ ⟨some 4⟩).conditions = [] ∧
    (routerBuiltQuery ⟨"leadCreated".toList, [], true, 7⟩ ⟨some 4⟩).limit = some 1 ∧
    (routerBuiltQuery ⟨"leadCreated".toList, [], true, 7⟩ ⟨some 4⟩).returnAll = false ∧
    (WorkflowStaticData.mk (some 7)).lastTimeChecked = some 7 := by
  have h := c7_manual_run ⟨"leadCreated".toList, [], true, 7⟩ ⟨some 4⟩ rfl
  exact ⟨h.1, h.2.1, h.2.2.1,
    h.2.2.2 emptyFetch none ⟨some 7⟩ rfl⟩

/-! ## C8 -/

/-- Evaluation of `slice(0, 1)`. -/
theorem jsSlice_zero_one (s : JSStr) : jsSlice s 0 1 = s.take 1 := by
  cases s with
  | nil => rfl
  | cons c t =>
    unfold jsSlice
    have h1 : jsSliceIndex (c :: t).length 1 = 1 := by
      simp [jsSliceIndex]
    have h0 : jsSliceIndex (c :: t).length 0 = 0 := by
      simp [jsSliceIndex]
    rw [h1, h0]
    rfl

/-- Evaluation of `slice(1, -7)` on a non-empty string. -/
theorem jsSlice_one_neg_seven (s : JSStr) (h : 1 ≤ s.length) :
    jsSlice s 1 (-7) = (s.take (s.length - 7)).drop 1 := by
  unfold jsSlice
  have h1 : jsSliceIndex s.length 1 = 1 := by
    simp [jsSliceIndex]
    omega
  have h2 : jsSliceIndex s.length (-7) = s.length - 7 := by
    simp [jsSliceIndex]
  rw [h1, h2]

/-- Evaluation of the one-argument `slice(-7)`: the final seven characters
(the whole string when it is shorter). -/
theorem changeTypeOf_eq_drop (s : JSStr) :
    changeTypeOf s = s.drop (s.length - 7) := by
  unfold changeTypeOf jsSliceFrom jsSlice
  have h1 : jsSliceIndex s.length s.length = s.length := by
    simp [jsSliceIndex]
  have h2 : jsSliceIndex s.length (-7) = s.length - 7 := by
    simp [jsSliceIndex]
  rw [h1, h2, List.take_length]

/-- On selectors long enough to carry a non-empty resource fragment before
the 7-character suffix, the code's decoding agrees with the spec's rule. -/
theorem triggerResourceRaw_eq_spec (s : JSStr) (h : 8 ≤ s.length) :
    triggerResourceRaw s = specTriggerResource s := by
  cases s with
  | nil => simp at h
  | cons c t =>
    have h7 : 7 ≤ t.length := by
      simp at h
      omega
    unfold triggerResourceRaw specTriggerResource
    rw [jsSlice_zero_one, jsSlice_one_neg_seven _ (by simp)]
    have htake : (c :: t).take ((c :: t).length - 7) = c :: t.take (t.length - 7) := by
      have hl : (c :: t).length - 7 = (t.length - 7) + 1 := by
        simp
        omega
      rw [hl, List.take_succ_cons]
    rw [htake]
    rfl

/-- C8 counterexample: on the 7-character selector string `"created"` the
code decodes the resource as `"C"` (it always keeps the upper-cased first
character), while the claimed rule — the remaining prefix after removing the
final 7 characters, first character upper-cased — yields the empty resource
name. -/
theorem c8_counterexample_short_selector :
    triggerResourceRaw "created".toList = "C".toList ∧
    specTriggerResource "created".toList = [] ∧
    triggerResourceRaw "created".toList ≠ specTriggerResource "created".toList :=
  ⟨by decide, by decide, by decide⟩

/-- C8 (amended): for selector strings of length at least 8 — those whose
resource fragment before the 7-character suffix is non-empty — the router
decodes the change kind as the final 7 characters and the resource as the
remaining prefix with only its first character upper-cased, the rest of the
casing preserved; when the decoded resource equals the literal
`"CustomObject"`, the resource name is taken from the `customObject` field
instead. -/
theorem c8_amended_selector_decoding (sel custom : JSStr)
    (h : 8 ≤ sel.length) :
    changeTypeOf sel = sel.drop (sel.length - 7) ∧
    triggerResourceRaw sel = specTriggerResource sel ∧
    resolveTriggerResource sel custom =
      (if triggerResourceRaw sel = "CustomObject".toList then custom
       else triggerResourceRaw sel) :=
  ⟨changeTypeOf_eq_drop sel, triggerResourceRaw_eq_spec sel h, rfl⟩

theorem c8_amended_selector_decoding_witness :
    changeTypeOf "opportunityUpdated".toList =
      "opportunityUpdated".toList.drop ("opportunityUpdated".toList.length - 7) ∧
    triggerResourceRaw "opportunityUpdated".toList =
      specTriggerResource "opportunityUpdated".toList ∧
    resolveTriggerResource "opportunityUpdated".toList [] =
      (if triggerResourceRaw "opportunityUpdated".toList = "CustomObject".toList
       then ([] : JSStr) else triggerResourceRaw "opportunityUpdated".toList) :=
  c8_amended_selector_decoding "opportunityUpdated".toList [] (by decide)

/-! ## C9 -/

/-- C9 counterexample: with the custom-object selector and an empty
`customObject` parameter the router raises no configuration error at all — it
builds the query with an empty resource name, and when the fetch happens to
succeed the poll completes normally and even advances the checkpoint. -/
theorem c9_counterexample_no_configuration_error :
    (routerBuiltQuery ⟨"customObjectCreated".toList, [], false, 10⟩
      ⟨some 3⟩).resource = [] ∧
    router ⟨"customObjectCreated".toList, [], false, 10⟩ ⟨some 3⟩
        (fun _ => .ok [⟨5, 5⟩]) =
      (.ok (some [⟨5, 5⟩]), ⟨some 10⟩) :=
  ⟨rfl, rfl⟩

/-- C9 (amended): the router performs no validation of the resolved resource
name.  A custom-object poll with an empty `customObject` parameter passes the
empty resource straight into the built query; any failure then comes from the
fetch step itself, is re-raised as a `NodeApiError`, and leaves the
checkpoint unmutated. -/
theorem c9_amended_no_validation (ctx : PollContext) (wd : WorkflowStaticData)
    (f : SOQLQuery → Except Unit (List SObjectRecord)) (e : Unit)
    (hraw : triggerResourceRaw ctx.triggerOn = "CustomObject".toList)
    (hemp : ctx.customObject = []) :
    (routerBuiltQuery ctx wd).resource = [] ∧
    (f (routerBuiltQuery ctx wd) = .error e →
      router ctx wd f = (.error .nodeApiError, wd)) := by
  constructor
  · rw [routerBuiltQuery_resource, resolveTriggerResource, if_pos hraw, hemp]
  · intro hf
    exact router_fetch_error ctx wd f e hf

theorem c9_amended_no_validation_witness :
    (routerBuiltQuery ⟨"customObjectUpdated".toList, [], false, 10⟩
      ⟨some 3⟩).resource = [] ∧
    (failFetch (routerBuiltQuery ⟨"customObjectUpdated".toList, [], false, 10⟩
        ⟨some 3⟩) = .error () →
      router ⟨"customObjectUpdated".toList, [], false, 10⟩ ⟨some 3⟩ failFetch =
        (.error .nodeApiError, ⟨some 3⟩)) :=
  c9_amended_no_validation ⟨"customObjectUpdated".toList, [], false, 10⟩
    ⟨some 3⟩ failFetch () (by decide) rfl

/-! ## C10 -/

/-- C10: outside manual mode, any selector whose final 7 characters are not
exactly `"Created"` — including malformed suffixes that are neither
`"Created"` nor `"Updated"` — falls through to the `Updated` branch and gets
the three-clause `LastModifiedDate`/`CreatedDate` filter; no validation
rejects an unrecognized change-kind suffix. -/
theorem c10_unrecognized_suffix_falls_to_updated (ctx : PollContext)
    (wd : WorkflowStaticData)
    (hm : ctx.isManual = false)
    (hct : changeTypeOf ctx.triggerOn ≠ "Created".toList) :
    (routerBuiltQuery ctx wd).conditions =
      [⟨"LastModifiedDate", ">=", routerStartDate ctx wd⟩,
       ⟨"LastModifiedDate", "<", ctx.now⟩,
       ⟨"CreatedDate", "<", routerStartDate ctx wd⟩] := by
  rw [routerBuiltQuery_conditions, hm, routerConditions,
    if_neg (by simp), if_neg hct]

theorem c10_unrecognized_suffix_falls_to_updated_witness :
    (routerBuiltQuery ⟨"leadDeleted".toList, [], false, 9⟩ ⟨some 4⟩).conditions =
      [⟨"LastModifiedDate", ">=", 4⟩,
       ⟨"LastModifiedDate", "<", 9⟩,
       ⟨"CreatedDate", "<", 4⟩] :=
  c10_unrecognized_suffix_falls_to_updated ⟨"leadDeleted".toList, [], false, 9⟩
    ⟨some 4⟩ rfl (by decide)
